import Mathlib

/-!
Shallow embedding of the Solana secp256r1 precompile
(`sdk/src/secp256r1_instruction.rs`).

Byte buffers are modelled as `List Nat` (each entry a byte value), the
error enum as an inductive, and the external OpenSSL / p256 primitives
(curve point decoding, the ECDSA verification call) as an abstract
`CryptoOracle` parameter, since they are external library collaborators
of the verified code.  All integer arithmetic from the source is carried
out on `Nat` with explicit saturation where the source saturates.
-/

namespace Secp256r1

/-- The subset of `PrecompileError` used by `secp256r1_instruction.rs`. -/
inductive PrecompileError where
  | InvalidInstructionDataSize
  | InvalidDataOffsets
  | InvalidSignature
  | InvalidPublicKey
  deriving DecidableEq, Repr

/-- `COMPRESSED_PUBKEY_SERIALIZED_SIZE` from the source. -/
def COMPRESSED_PUBKEY_SERIALIZED_SIZE : Nat := 33

/-- `SIGNATURE_SERIALIZED_SIZE` from the source. -/
def SIGNATURE_SERIALIZED_SIZE : Nat := 64

/-- `SIGNATURE_OFFSETS_SERIALIZED_SIZE` from the source. -/
def SIGNATURE_OFFSETS_SERIALIZED_SIZE : Nat := 14

/-- `SIGNATURE_OFFSETS_START` from the source. -/
def SIGNATURE_OFFSETS_START : Nat := 2

/-- `DATA_START = SIGNATURE_OFFSETS_SERIALIZED_SIZE + SIGNATURE_OFFSETS_START`. -/
def DATA_START : Nat := SIGNATURE_OFFSETS_SERIALIZED_SIZE + SIGNATURE_OFFSETS_START

/-- `usize::MAX` on the 64-bit targets the program runs on. -/
def USIZE_MAX : Nat := 2 ^ 64 - 1

/-- Rust `usize::saturating_add`. -/
def saturating_add (a b : Nat) : Nat := min (a + b) USIZE_MAX

/-- The `Secp256r1SignatureOffsets` struct: seven `u16` fields, modelled as
`Nat` values (values produced by decoding byte buffers are `< 2 ^ 16`). -/
structure Secp256r1SignatureOffsets where
  signature_offset : Nat
  signature_instruction_index : Nat
  public_key_offset : Nat
  public_key_instruction_index : Nat
  message_data_offset : Nat
  message_data_size : Nat
  message_instruction_index : Nat
  deriving DecidableEq, Repr

/-- Read a little-endian `u16` at position `i` of a byte list
(out-of-range bytes read as 0). -/
def readU16LE (l : List Nat) (i : Nat) : Nat :=
  l.getD i 0 + 256 * l.getD (i + 1) 0

/-- The `bytemuck` reinterpretation of a 14-byte slice as a
`Secp256r1SignatureOffsets` record: seven little-endian `u16` fields in
declaration order (`#[repr(C)]`, no padding).  The alignment failure mode of
`bytemuck::try_from_bytes` is a memory-layout condition with no counterpart
in this model; the size precondition is guaranteed at the call site. -/
def decodeOffsets (bytes : List Nat) : Secp256r1SignatureOffsets :=
  { signature_offset := readU16LE bytes 0
    signature_instruction_index := readU16LE bytes 2
    public_key_offset := readU16LE bytes 4
    public_key_instruction_index := readU16LE bytes 6
    message_data_offset := readU16LE bytes 8
    message_data_size := readU16LE bytes 10
    message_instruction_index := readU16LE bytes 12 }

/-- Little-endian serialization of a `u16` value (`bytemuck::bytes_of` on one
field). -/
def u16LEBytes (x : Nat) : List Nat := [x % 256, x / 256 % 256]

/-- `bytemuck::bytes_of` on a whole `Secp256r1SignatureOffsets` record. -/
def serializeOffsets (o : Secp256r1SignatureOffsets) : List Nat :=
  u16LEBytes o.signature_offset ++ u16LEBytes o.signature_instruction_index ++
  u16LEBytes o.public_key_offset ++ u16LEBytes o.public_key_instruction_index ++
  u16LEBytes o.message_data_offset ++ u16LEBytes o.message_data_size ++
  u16LEBytes o.message_instruction_index

/-- Order of the P-256 (prime256v1) group, as returned by
`EcGroup::from_curve_name(Nid::X9_62_PRIME256V1).order(...)`. -/
def p256_order : Nat :=
  0xffffffff00000000ffffffffffffffffbce6faada7179e84f3b9cac2fc632551

/-- `half_order.rshift1(&order)`: the curve order shifted right one bit. -/
def half_order : Nat := p256_order / 2

/-- `n_minus_one.checked_sub(&order, &one)`: the curve order minus one. -/
def n_minus_one : Nat := p256_order - 1

/-- `BigNum::from_slice`: big-endian interpretation of a byte slice. -/
def bytesBE (l : List Nat) : Nat := l.foldl (fun acc b => acc * 256 + b) 0

/-- Abstraction of the external OpenSSL primitives used by `verify`:
`decode_point pk` is whether the 33 compressed public-key bytes decode to a
curve point (the `EcPoint::from_bytes` / `EcKey::from_public_key` /
`PKey::from_ec_key` chain succeeds); `ecdsa_verify pk msg r s` is the
result of `Verifier::verify` on the DER encoding of `(r, s)` —
`none` models an error of the verification call itself, `some b` a verdict. -/
structure CryptoOracle where
  decode_point : List Nat → Bool
  ecdsa_verify : List Nat → List Nat → Nat → Nat → Option Bool

/-- The tail of `get_data_slice`, applied to the selected source buffer:
`end = start.saturating_add(size)`, the check `end > instruction.len()`
(→ `InvalidDataOffsets`), and on success the slice
`instruction[start..end]`. -/
def sliceFrom (instruction : List Nat) (offset_start : Nat) (size : Nat) :
    Except PrecompileError (List Nat) :=
  if instruction.length < saturating_add offset_start size then
    Except.error PrecompileError.InvalidDataOffsets
  else
    Except.ok ((instruction.drop offset_start).take
      (saturating_add offset_start size - offset_start))

/-- `get_data_slice` from the source: picks the source buffer (own `data`
for the sentinel index `0xFFFF`, else `instruction_datas[instruction_index]`
after the bounds check, failing with `InvalidDataOffsets` when out of
range), then slices it via `sliceFrom`. -/
def get_data_slice (data : List Nat) (instruction_datas : List (List Nat))
    (instruction_index : Nat) (offset_start : Nat) (size : Nat) :
    Except PrecompileError (List Nat) :=
  if instruction_index = 0xFFFF then sliceFrom data offset_start size
  else if instruction_datas.length ≤ instruction_index then
    Except.error PrecompileError.InvalidDataOffsets
  else sliceFrom (instruction_datas.getD instruction_index []) offset_start size

/-- The body of `verify`'s per-signature loop, after the offsets record has
been decoded: resolve the three slices (signature, public key, message, in
that order), split the signature big-endian into `r` and `s`, apply the
range check against `n_minus_one`, the low-S check against `half_order`,
decode the public key (failures → `InvalidPublicKey`), and run the external
verifier (call failure or `false` verdict → `InvalidSignature`).  The
OpenSSL allocation/encoding steps (`BigNum::new`, `EcdsaSig::to_der`, …)
whose errors the source maps to `InvalidSignature` are infallible and have
no failure counterpart here. -/
def verifyRecord (oracle : CryptoOracle) (data : List Nat)
    (instruction_datas : List (List Nat)) (offsets : Secp256r1SignatureOffsets) :
    Except PrecompileError Unit :=
  match get_data_slice data instruction_datas offsets.signature_instruction_index
      offsets.signature_offset SIGNATURE_SERIALIZED_SIZE with
  | Except.error e => Except.error e
  | Except.ok signature =>
  match get_data_slice data instruction_datas offsets.public_key_instruction_index
      offsets.public_key_offset COMPRESSED_PUBKEY_SERIALIZED_SIZE with
  | Except.error e => Except.error e
  | Except.ok pubkey =>
  match get_data_slice data instruction_datas offsets.message_instruction_index
      offsets.message_data_offset offsets.message_data_size with
  | Except.error e => Except.error e
  | Except.ok message =>
    let r := bytesBE (List.take 32 signature)
    let s := bytesBE (List.drop 32 signature)
    if ¬ (1 < r ∧ r < n_minus_one ∧ 1 < s ∧ s < n_minus_one) then
      Except.error PrecompileError.InvalidSignature
    else if half_order < s then
      Except.error PrecompileError.InvalidSignature
    else if oracle.decode_point pubkey = false then
      Except.error PrecompileError.InvalidPublicKey
    else
      match oracle.ecdsa_verify pubkey message r s with
      | none => Except.error PrecompileError.InvalidSignature
      | some false => Except.error PrecompileError.InvalidSignature
      | some true => Except.ok ()

/-- The offsets record of signature number `i`: the 14-byte slice of `data`
starting at `i * 14 + 2`, reinterpreted. -/
def recordOffsets (data : List Nat) (i : Nat) : Secp256r1SignatureOffsets :=
  decodeOffsets ((data.drop
    (i * SIGNATURE_OFFSETS_SERIALIZED_SIZE + SIGNATURE_OFFSETS_START)).take
    SIGNATURE_OFFSETS_SERIALIZED_SIZE)

/-- `verify`'s `for i in 0..num_signatures` loop: processes `count` records
starting at record index `i`, stopping at the first error. -/
def verifyRecords (oracle : CryptoOracle) (data : List Nat)
    (instruction_datas : List (List Nat)) (i : Nat) :
    Nat → Except PrecompileError Unit
  | 0 => Except.ok ()
  | count + 1 =>
    match verifyRecord oracle data instruction_datas (recordOffsets data i) with
    | Except.error e => Except.error e
    | Except.ok _ => verifyRecords oracle data instruction_datas (i + 1) count

/-- `verify` from the source: header-size check, the zero-signature special
case, the declared-size check (byte 1 is never inspected), then the record
loop. -/
def verify (oracle : CryptoOracle) (data : List Nat)
    (instruction_datas : List (List Nat)) : Except PrecompileError Unit :=
  if data.length < SIGNATURE_OFFSETS_START then
    Except.error PrecompileError.InvalidInstructionDataSize
  else
    let num_signatures := data.getD 0 0
    if num_signatures = 0 ∧ SIGNATURE_OFFSETS_START < data.length then
      Except.error PrecompileError.InvalidInstructionDataSize
    else
      let expected_data_size :=
        num_signatures * SIGNATURE_OFFSETS_SERIALIZED_SIZE + SIGNATURE_OFFSETS_START
      if data.length < expected_data_size then
        Except.error PrecompileError.InvalidInstructionDataSize
      else verifyRecords oracle data instruction_datas 0 num_signatures

/-- The instruction data built by `new_secp256r1_instruction`.  The
signature (already low-S normalized) and the compressed public key are
produced by the external `p256` signer and are parameters here; the
function lays out header, one offsets record (all instruction indices the
sentinel `u16::MAX`), public key, signature, message.  The `as u16` casts
of the source are the `% 65536` reductions. -/
def new_secp256r1_instruction_data (pubkey signature message : List Nat) :
    List Nat :=
  let public_key_offset := DATA_START
  let signature_offset := public_key_offset + COMPRESSED_PUBKEY_SERIALIZED_SIZE
  let message_data_offset := signature_offset + SIGNATURE_SERIALIZED_SIZE
  let offsets : Secp256r1SignatureOffsets :=
    { signature_offset := signature_offset % 65536
      signature_instruction_index := 0xFFFF
      public_key_offset := public_key_offset % 65536
      public_key_instruction_index := 0xFFFF
      message_data_offset := message_data_offset % 65536
      message_data_size := message.length % 65536
      message_instruction_index := 0xFFFF }
  [1, 0] ++ serializeOffsets offsets ++ pubkey ++ signature ++ message

deriving instance DecidableEq for Except

/-- An oracle whose point decoding and verification always succeed. -/
def oracleTrue : CryptoOracle :=
  { decode_point := fun _ => true, ecdsa_verify := fun _ _ _ _ => some true }

/-- An oracle whose point decoding always fails. -/
def oracleNoPoint : CryptoOracle :=
  { decode_point := fun _ => false, ecdsa_verify := fun _ _ _ _ => some true }

/-- 64 zero bytes: a payload whose self-referenced signature is `r = s = 0`. -/
def zeros64 : List Nat := List.replicate 64 0

/-- An offsets record whose three indices are the sentinel `0xFFFF`, all
offsets 0 and an empty message. -/
def offsetsSelf0 : Secp256r1SignatureOffsets :=
  { signature_offset := 0, signature_instruction_index := 0xFFFF,
    public_key_offset := 0, public_key_instruction_index := 0xFFFF,
    message_data_offset := 0, message_data_size := 0,
    message_instruction_index := 0xFFFF }

/-- Like `offsetsSelf0` but the signature is looked up in sibling
instruction 0. -/
def offsetsNoSibling : Secp256r1SignatureOffsets :=
  { offsetsSelf0 with signature_instruction_index := 0 }

/-- A 64-byte signature with `r = 2` and `s = p256_order - 2`
(in range but high-S). -/
def sigHighS : List Nat :=
  List.replicate 31 0 ++ [2] ++
  [0xff, 0xff, 0xff, 0xff, 0, 0, 0, 0,
   0xff, 0xff, 0xff, 0xff, 0xff, 0xff, 0xff, 0xff,
   0xbc, 0xe6, 0xfa, 0xad, 0xa7, 0x17, 0x9e, 0x84,
   0xf3, 0xb9, 0xca, 0xc2, 0xfc, 0x63, 0x25, 0x4f]

/-- A 64-byte signature with `r = 2` and `s = 2` (in range, low-S). -/
def sigLowS : List Nat :=
  List.replicate 31 0 ++ [2] ++ List.replicate 31 0 ++ [2]

/-- `sliceFrom` only ever fails with `InvalidDataOffsets`. -/
theorem sliceFrom_error (instruction : List Nat) (off sz : Nat)
    (e : PrecompileError) (h : sliceFrom instruction off sz = Except.error e) :
    e = PrecompileError.InvalidDataOffsets := by
  unfold sliceFrom at h
  split at h <;> simp_all

/-- `get_data_slice` only ever fails with `InvalidDataOffsets`. -/
theorem get_data_slice_error (data : List Nat) (ids : List (List Nat))
    (ii off sz : Nat) (e : PrecompileError)
    (h : get_data_slice data ids ii off sz = Except.error e) :
    e = PrecompileError.InvalidDataOffsets := by
  unfold get_data_slice at h
  split at h
  · exact sliceFrom_error _ _ _ _ h
  · split at h
    · simp_all
    · exact sliceFrom_error _ _ _ _ h

/-- If the selected source buffer is `src`, `get_data_slice` is `sliceFrom src`. -/
theorem get_data_slice_source (data : List Nat) (ids : List (List Nat))
    (i off size : Nat) (src : List Nat)
    (hsrc : (if i = 0xFFFF then some data else ids[i]?) = some src) :
    get_data_slice data ids i off size = sliceFrom src off size := by
  unfold get_data_slice
  by_cases hi : i = 0xFFFF
  · rw [if_pos hi] at hsrc
    rw [if_pos hi, Option.some_inj.mp hsrc]
  · rw [if_neg hi] at hsrc
    have hlt : i < ids.length := by
      by_contra hge
      rw [List.getElem?_eq_none (by omega)] at hsrc
      exact Option.noConfusion hsrc
    rw [List.getElem?_eq_getElem hlt] at hsrc
    rw [if_neg hi, if_neg (by omega), List.getD_eq_getElem ids [] hlt,
      Option.some_inj.mp hsrc]

/-- The resolver as the claim words it: source buffer is `own_data` for the
sentinel `0xFFFF`, else `all_instruction_datas[i]` (failing with
`InvalidDataOffsets` when `i` is out of range); fails with
`InvalidDataOffsets` when `offset + length` exceeds the source buffer
length, else returns exactly the subslice `[offset, offset+length)`. -/
def resolveSpec (own_data : List Nat) (all_instruction_datas : List (List Nat))
    (instruction_index offset len : Nat) : Except PrecompileError (List Nat) :=
  match (if instruction_index = 0xFFFF then some own_data
         else all_instruction_datas[instruction_index]?) with
  | none => Except.error PrecompileError.InvalidDataOffsets
  | some src =>
    if offset + len > src.length then Except.error PrecompileError.InvalidDataOffsets
    else Except.ok ((src.drop offset).take len)

/-- C3: `get_data_slice` behaves exactly as the claim describes: sentinel
index `0xFFFF` reads the current instruction's own data, any other index
`i` reads `all_instruction_datas[i]` (out-of-range → `InvalidDataOffsets`),
an `offset + length` past the end of the source buffer →
`InvalidDataOffsets`, and otherwise the result is exactly the subslice
`[offset, offset+length)`.  The hypothesis records that the saturating
addition of the source does not saturate, which holds at every call site
(`offset` is a `u16` and `size` is at most `u16::MAX`). -/
theorem C3_get_data_slice_matches_resolver (data : List Nat)
    (ids : List (List Nat)) (i off len : Nat) (h : off + len ≤ USIZE_MAX) :
    get_data_slice data ids i off len = resolveSpec data ids i off len := by
  have hsat : saturating_add off len = off + len := by
    unfold saturating_add; omega
  unfold resolveSpec
  by_cases hi : i = 0xFFFF
  · rw [get_data_slice_source data ids i off len data (by rw [if_pos hi])]
    unfold sliceFrom
    rw [if_pos hi, hsat]
    simp only [gt_iff_lt, Nat.add_sub_cancel_left]
  · by_cases hlen : i < ids.length
    · rw [get_data_slice_source data ids i off len ids[i]
        (by rw [if_neg hi, List.getElem?_eq_getElem hlen])]
      unfold sliceFrom
      rw [if_neg hi, List.getElem?_eq_getElem hlen, hsat]
      simp only [gt_iff_lt, Nat.add_sub_cancel_left]
    · unfold get_data_slice
      rw [if_neg hi, if_pos (by omega), if_neg hi,
        List.getElem?_eq_none (by omega)]

/-- C3 witness. -/
theorem C3_witness :
    get_data_slice [5, 6, 7] [] 0xFFFF 1 2 = resolveSpec [5, 6, 7] [] 0xFFFF 1 2 :=
  C3_get_data_slice_matches_resolver [5, 6, 7] [] 0xFFFF 1 2 (by decide)

/-- C9: resolution succeeds at the exact end boundary: when
`offset + size = src.length` the resolver returns the final `size` bytes
(the check is strictly greater-than), and in particular a zero-size slice
at offset `src.length` resolves to the empty slice rather than
`InvalidDataOffsets`. -/
theorem C9_exact_end_boundary (data : List Nat) (ids : List (List Nat))
    (i off size : Nat) (src : List Nat)
    (hsrc : (if i = 0xFFFF then some data else ids[i]?) = some src)
    (hmax : src.length ≤ USIZE_MAX)
    (hlen : off + size = src.length) :
    get_data_slice data ids i off size = Except.ok (src.drop off) ∧
    (src.drop off).length = size ∧
    get_data_slice data ids i src.length 0 = Except.ok [] := by
  have hdl : (src.drop off).length = size := by
    rw [List.length_drop]; omega
  refine ⟨?_, hdl, ?_⟩
  · rw [get_data_slice_source data ids i off size src hsrc]
    unfold sliceFrom
    have hsat : saturating_add off size = off + size := by
      unfold saturating_add; omega
    rw [hsat, if_neg (by omega)]
    have h1 : off + size - off = size := by omega
    rw [h1, ← hdl, List.take_length _]
  · rw [get_data_slice_source data ids i src.length 0 src hsrc]
    unfold sliceFrom
    have hsat : saturating_add src.length 0 = src.length := by
      unfold saturating_add; omega
    rw [hsat, if_neg (by omega)]
    simp

/-- Evaluation of `verifyRecord` once the three slices have resolved. -/
theorem verifyRecord_eq_of_resolved (oracle : CryptoOracle) (data : List Nat)
    (ids : List (List Nat)) (offsets : Secp256r1SignatureOffsets)
    (sig pk msg : List Nat)
    (hsig : get_data_slice data ids offsets.signature_instruction_index
      offsets.signature_offset SIGNATURE_SERIALIZED_SIZE = Except.ok sig)
    (hpk : get_data_slice data ids offsets.public_key_instruction_index
      offsets.public_key_offset COMPRESSED_PUBKEY_SERIALIZED_SIZE = Except.ok pk)
    (hmsg : get_data_slice data ids offsets.message_instruction_index
      offsets.message_data_offset offsets.message_data_size = Except.ok msg) :
    verifyRecord oracle data ids offsets =
      (if ¬ (1 < bytesBE (List.take 32 sig) ∧ bytesBE (List.take 32 sig) < n_minus_one ∧
             1 < bytesBE (List.drop 32 sig) ∧ bytesBE (List.drop 32 sig) < n_minus_one) then
        Except.error PrecompileError.InvalidSignature
      else if half_order < bytesBE (List.drop 32 sig) then
        Except.error PrecompileError.InvalidSignature
      else if oracle.decode_point pk = false then
        Except.error PrecompileError.InvalidPublicKey
      else
        match oracle.ecdsa_verify pk msg (bytesBE (List.take 32 sig))
            (bytesBE (List.drop 32 sig)) with
        | none => Except.error PrecompileError.InvalidSignature
        | some false => Except.error PrecompileError.InvalidSignature
        | some true => Except.ok ()) := by
  unfold verifyRecord
  rw [hsig, hpk, hmsg]

/-- C1: with all three slices resolved, the 64-byte signature is split into
big-endian `r = bytes[0:32]` and `s = bytes[32:64]`, and the record is
rejected with `InvalidSignature` unless `1 < r < n-1` and `1 < s < n-1`
(strict on both sides); in particular the values 0, 1, `n-1` and `n`
all violate the bound. -/
theorem C1_scalar_range_check (oracle : CryptoOracle) (data : List Nat)
    (ids : List (List Nat)) (offsets : Secp256r1SignatureOffsets)
    (sig pk msg : List Nat)
    (hsig : get_data_slice data ids offsets.signature_instruction_index
      offsets.signature_offset SIGNATURE_SERIALIZED_SIZE = Except.ok sig)
    (hpk : get_data_slice data ids offsets.public_key_instruction_index
      offsets.public_key_offset COMPRESSED_PUBKEY_SERIALIZED_SIZE = Except.ok pk)
    (hmsg : get_data_slice data ids offsets.message_instruction_index
      offsets.message_data_offset offsets.message_data_size = Except.ok msg)
    (hbad : ¬ (1 < bytesBE (List.take 32 sig) ∧ bytesBE (List.take 32 sig) < n_minus_one ∧
               1 < bytesBE (List.drop 32 sig) ∧ bytesBE (List.drop 32 sig) < n_minus_one)) :
    verifyRecord oracle data ids offsets = Except.error PrecompileError.InvalidSignature ∧
    ∀ x : Nat, x = 0 ∨ x = 1 ∨ x = n_minus_one ∨ x = p256_order →
      ¬ (1 < x ∧ x < n_minus_one) := by
  constructor
  · rw [verifyRecord_eq_of_resolved oracle data ids offsets sig pk msg hsig hpk hmsg,
      if_pos hbad]
  · intro x hx
    rcases hx with rfl | rfl | rfl | rfl <;> decide

/-- C1 witness: an all-zero signature (`r = s = 0`). -/
theorem C1_witness :
    verifyRecord oracleTrue zeros64 [] offsetsSelf0 =
      Except.error PrecompileError.InvalidSignature :=
  (C1_scalar_range_check oracleTrue zeros64 [] offsetsSelf0
    (List.replicate 64 0) (List.replicate 33 0) []
    (by decide) (by decide) (by decide) (by decide)).1

/-- C2: with all three slices resolved and the scalar range check passed,
the record is rejected with `InvalidSignature` when `s > half_order`,
the curve order shifted right by one bit. -/
theorem C2_high_s_rejected (oracle : CryptoOracle) (data : List Nat)
    (ids : List (List Nat)) (offsets : Secp256r1SignatureOffsets)
    (sig pk msg : List Nat)
    (hsig : get_data_slice data ids offsets.signature_instruction_index
      offsets.signature_offset SIGNATURE_SERIALIZED_SIZE = Except.ok sig)
    (hpk : get_data_slice data ids offsets.public_key_instruction_index
      offsets.public_key_offset COMPRESSED_PUBKEY_SERIALIZED_SIZE = Except.ok pk)
    (hmsg : get_data_slice data ids offsets.message_instruction_index
      offsets.message_data_offset offsets.message_data_size = Except.ok msg)
    (hrange : 1 < bytesBE (List.take 32 sig) ∧ bytesBE (List.take 32 sig) < n_minus_one ∧
              1 < bytesBE (List.drop 32 sig) ∧ bytesBE (List.drop 32 sig) < n_minus_one)
    (hhigh : half_order < bytesBE (List.drop 32 sig)) :
    verifyRecord oracle data ids offsets = Except.error PrecompileError.InvalidSignature := by
  rw [verifyRecord_eq_of_resolved oracle data ids offsets sig pk msg hsig hpk hmsg,
    if_neg (not_not_intro hrange), if_pos hhigh]

/-- C2 witness: `r = 2`, `s = n - 2` (in range, high-S). -/
theorem C2_witness :
    verifyRecord oracleTrue sigHighS [] offsetsSelf0 =
      Except.error PrecompileError.InvalidSignature :=
  C2_high_s_rejected oracleTrue sigHighS [] offsetsSelf0
    sigHighS (sigHighS.take 33) []
    (by decide) (by decide) (by decide) (by decide) (by decide)

/-- C6: with the slices resolved, the range check passed and the low-S check
passed, a public-key decode failure is reported as `InvalidPublicKey`,
while a failure of the verification call itself (`none`) or a `false`
verification verdict is reported as `InvalidSignature` (and a `true`
verdict accepts the record). -/
theorem C6_decode_and_verify_error_codes (oracle : CryptoOracle) (data : List Nat)
    (ids : List (List Nat)) (offsets : Secp256r1SignatureOffsets)
    (sig pk msg : List Nat)
    (hsig : get_data_slice data ids offsets.signature_instruction_index
      offsets.signature_offset SIGNATURE_SERIALIZED_SIZE = Except.ok sig)
    (hpk : get_data_slice data ids offsets.public_key_instruction_index
      offsets.public_key_offset COMPRESSED_PUBKEY_SERIALIZED_SIZE = Except.ok pk)
    (hmsg : get_data_slice data ids offsets.message_instruction_index
      offsets.message_data_offset offsets.message_data_size = Except.ok msg)
    (hrange : 1 < bytesBE (List.take 32 sig) ∧ bytesBE (List.take 32 sig) < n_minus_one ∧
              1 < bytesBE (List.drop 32 sig) ∧ bytesBE (List.drop 32 sig) < n_minus_one)
    (hlow : ¬ half_order < bytesBE (List.drop 32 sig)) :
    (oracle.decode_point pk = false →
      verifyRecord oracle data ids offsets = Except.error PrecompileError.InvalidPublicKey) ∧
    (oracle.decode_point pk = true →
      oracle.ecdsa_verify pk msg (bytesBE (List.take 32 sig)) (bytesBE (List.drop 32 sig)) = none →
      verifyRecord oracle data ids offsets = Except.error PrecompileError.InvalidSignature) ∧
    (oracle.decode_point pk = true →
      oracle.ecdsa_verify pk msg (bytesBE (List.take 32 sig)) (bytesBE (List.drop 32 sig)) = some false →
      verifyRecord oracle data ids offsets = Except.error PrecompileError.InvalidSignature) ∧
    (oracle.decode_point pk = true →
      oracle.ecdsa_verify pk msg (bytesBE (List.take 32 sig)) (bytesBE (List.drop 32 sig)) = some true →
      verifyRecord oracle data ids offsets = Except.ok ()) := by
  rw [verifyRecord_eq_of_resolved oracle data ids offsets sig pk msg hsig hpk hmsg,
    if_neg (not_not_intro hrange), if_neg hlow]
  refine ⟨fun hdec => ?_, fun hdec hv => ?_, fun hdec hv => ?_, fun hdec hv => ?_⟩
  · rw [if_pos hdec]
  · rw [if_neg (by simp [hdec]), hv]
  · rw [if_neg (by simp [hdec]), hv]
  · rw [if_neg (by simp [hdec]), hv]

/-- C6 witness: a valid-range low-S signature whose public key fails to
decode is rejected with `InvalidPublicKey`. -/
theorem C6_witness :
    verifyRecord oracleNoPoint sigLowS [] offsetsSelf0 =
      Except.error PrecompileError.InvalidPublicKey :=
  (C6_decode_and_verify_error_codes oracleNoPoint sigLowS [] offsetsSelf0
    sigLowS (sigLowS.take 33) []
    (by decide) (by decide) (by decide) (by decide) (by decide)).1 rfl

/-- C10: if any of the three slice resolutions of a record fails, the
record is rejected with `InvalidDataOffsets`, regardless of what the
signature or public-key bytes would have done in the later checks. -/
theorem C10_resolution_precedes_validation (oracle : CryptoOracle)
    (data : List Nat) (ids : List (List Nat)) (offsets : Secp256r1SignatureOffsets)
    (h : (∃ e, get_data_slice data ids offsets.signature_instruction_index
            offsets.signature_offset SIGNATURE_SERIALIZED_SIZE = Except.error e) ∨
         (∃ e, get_data_slice data ids offsets.public_key_instruction_index
            offsets.public_key_offset COMPRESSED_PUBKEY_SERIALIZED_SIZE = Except.error e) ∨
         (∃ e, get_data_slice data ids offsets.message_instruction_index
            offsets.message_data_offset offsets.message_data_size = Except.error e)) :
    verifyRecord oracle data ids offsets = Except.error PrecompileError.InvalidDataOffsets := by
  unfold verifyRecord
  cases hsig : get_data_slice data ids offsets.signature_instruction_index
      offsets.signature_offset SIGNATURE_SERIALIZED_SIZE with
  | error e => cases get_data_slice_error _ _ _ _ _ _ hsig; rfl
  | ok sig =>
    cases hpk : get_data_slice data ids offsets.public_key_instruction_index
        offsets.public_key_offset COMPRESSED_PUBKEY_SERIALIZED_SIZE with
    | error e => cases get_data_slice_error _ _ _ _ _ _ hpk; rfl
    | ok pk =>
      cases hmsg : get_data_slice data ids offsets.message_instruction_index
          offsets.message_data_offset offsets.message_data_size with
      | error e => cases get_data_slice_error _ _ _ _ _ _ hmsg; rfl
      | ok msg => rcases h with ⟨e, he⟩ | ⟨e, he⟩ | ⟨e, he⟩ <;> simp_all

/-- C10 witness: a record whose signature instruction index points past the
end of an empty sibling list is rejected with `InvalidDataOffsets` even
though its signature bytes (all zero) would fail the scalar range check. -/
theorem C10_witness :
    verifyRecord oracleTrue zeros64 [] offsetsNoSibling =
      Except.error PrecompileError.InvalidDataOffsets :=
  C10_resolution_precedes_validation oracleTrue zeros64 [] offsetsNoSibling
    (Or.inl ⟨PrecompileError.InvalidDataOffsets, by decide⟩)

/-- C9 witness. -/
theorem C9_witness :
    get_data_slice [1, 2, 3, 4] [] 0xFFFF 1 3 = Except.ok [2, 3, 4] ∧
    ([1, 2, 3, 4].drop 1).length = 3 ∧
    get_data_slice [1, 2, 3, 4] [] 0xFFFF 4 0 = Except.ok [] :=
  C9_exact_end_boundary [1, 2, 3, 4] [] 0xFFFF 1 3 [1, 2, 3, 4]
    (by decide) (by decide) (by decide)

/-- `verifyRecord` never fails with `InvalidInstructionDataSize`. -/
theorem verifyRecord_ne_size (oracle : CryptoOracle) (data : List Nat)
    (ids : List (List Nat)) (offsets : Secp256r1SignatureOffsets) :
    verifyRecord oracle data ids offsets ≠
      Except.error PrecompileError.InvalidInstructionDataSize := by
  cases hsig : get_data_slice data ids offsets.signature_instruction_index
      offsets.signature_offset SIGNATURE_SERIALIZED_SIZE with
  | error e =>
    cases get_data_slice_error _ _ _ _ _ _ hsig
    unfold verifyRecord; rw [hsig]; simp
  | ok sig =>
    cases hpk : get_data_slice data ids offsets.public_key_instruction_index
        offsets.public_key_offset COMPRESSED_PUBKEY_SERIALIZED_SIZE with
    | error e =>
      cases get_data_slice_error _ _ _ _ _ _ hpk
      unfold verifyRecord; rw [hsig, hpk]; simp
    | ok pk =>
      cases hmsg : get_data_slice data ids offsets.message_instruction_index
          offsets.message_data_offset offsets.message_data_size with
      | error e =>
        cases get_data_slice_error _ _ _ _ _ _ hmsg
        unfold verifyRecord; rw [hsig, hpk, hmsg]; simp
      | ok msg =>
        rw [verifyRecord_eq_of_resolved oracle data ids offsets sig pk msg hsig hpk hmsg]
        split
        · simp
        · split
          · simp
          · split
            · simp
            · split <;> simp

/-- The record loop never fails with `InvalidInstructionDataSize`. -/
theorem verifyRecords_ne_size (oracle : CryptoOracle) (data : List Nat)
    (ids : List (List Nat)) : ∀ count i,
    verifyRecords oracle data ids i count ≠
      Except.error PrecompileError.InvalidInstructionDataSize := by
  intro count
  induction count with
  | zero => intro i; simp [verifyRecords]
  | succ k ih =>
    intro i
    unfold verifyRecords
    cases hrec : verifyRecord oracle data ids (recordOffsets data i) with
    | error e =>
      intro hc
      simp only [] at hc
      cases hc
      exact verifyRecord_ne_size oracle data ids (recordOffsets data i) hrec
    | ok u => cases u; exact ih (i + 1)

/-- The record loop succeeds iff every processed record succeeds. -/
theorem verifyRecords_ok_iff (oracle : CryptoOracle) (data : List Nat)
    (ids : List (List Nat)) : ∀ count i,
    (verifyRecords oracle data ids i count = Except.ok () ↔
      ∀ j, j < count →
        verifyRecord oracle data ids (recordOffsets data (i + j)) = Except.ok ()) := by
  intro count
  induction count with
  | zero => intro i; simp [verifyRecords]
  | succ k ih =>
    intro i
    unfold verifyRecords
    cases hrec : verifyRecord oracle data ids (recordOffsets data i) with
    | error e =>
      refine iff_of_false (by simp) (fun h => ?_)
      have h0 := h 0 (Nat.succ_pos k)
      rw [Nat.add_zero, hrec] at h0
      exact Except.noConfusion h0
    | ok u =>
      cases u
      rw [ih (i + 1)]
      constructor
      · intro h j hj
        cases j with
        | zero => rw [Nat.add_zero]; exact hrec
        | succ j' =>
          have hstep := h j' (by omega)
          rwa [Nat.add_assoc, Nat.add_comm 1 j'] at hstep
      · intro h j hj
        have hstep := h (j + 1) (by omega)
        rwa [← Nat.add_comm 1 j, ← Nat.add_assoc] at hstep

/-- If the first failing record fails with `e`, the loop returns `e`. -/
theorem verifyRecords_first_error (oracle : CryptoOracle) (data : List Nat)
    (ids : List (List Nat)) : ∀ count i j e,
    j < count →
    verifyRecord oracle data ids (recordOffsets data (i + j)) = Except.error e →
    (∀ j', j' < j →
      verifyRecord oracle data ids (recordOffsets data (i + j')) = Except.ok ()) →
    verifyRecords oracle data ids i count = Except.error e := by
  intro count
  induction count with
  | zero => intro i j e hj _ _; exact absurd hj (Nat.not_lt_zero j)
  | succ k ih =>
    intro i j e hj herr hprev
    unfold verifyRecords
    cases j with
    | zero =>
      rw [Nat.add_zero] at herr
      rw [herr]
    | succ j' =>
      have h0 : verifyRecord oracle data ids (recordOffsets data i) = Except.ok () := by
        have := hprev 0 (Nat.succ_pos j')
        rwa [Nat.add_zero] at this
      rw [h0]
      refine ih (i + 1) j' e (by omega) ?_ ?_
      · rwa [Nat.add_assoc, Nat.add_comm 1 j']
      · intro j'' hj''
        have := hprev (j'' + 1) (by omega)
        rwa [← Nat.add_comm 1 j'', ← Nat.add_assoc] at this

/-- C4: `verify` returns `InvalidInstructionDataSize` exactly when the
payload is shorter than the 2-byte header, or `num_signatures = 0` with a
payload longer than 2 bytes, or the payload is shorter than
`2 + 14 * num_signatures`; and a 2-byte payload with `num_signatures = 0`
verifies vacuously. -/
theorem C4_size_error_characterization (oracle : CryptoOracle)
    (data : List Nat) (ids : List (List Nat)) :
    (verify oracle data ids = Except.error PrecompileError.InvalidInstructionDataSize ↔
      (data.length < 2 ∨ (data.getD 0 0 = 0 ∧ 2 < data.length) ∨
        data.length < 2 + 14 * data.getD 0 0)) ∧
    (data.length = 2 → data.getD 0 0 = 0 → verify oracle data ids = Except.ok ()) := by
  constructor
  · simp only [verify, SIGNATURE_OFFSETS_START, SIGNATURE_OFFSETS_SERIALIZED_SIZE]
    split_ifs with h1 h2 h3
    · simp only [true_iff]; omega
    · simp only [true_iff]; omega
    · simp only [true_iff]; omega
    · exact iff_of_false (verifyRecords_ne_size oracle data ids _ 0) (by omega)
  · intro hlen h0
    simp only [verify, SIGNATURE_OFFSETS_START, SIGNATURE_OFFSETS_SERIALIZED_SIZE]
    rw [if_neg (by omega), if_neg (by omega), if_neg (by omega), h0]
    simp [verifyRecords]

/-- C4 witness: the 2-byte zero payload verifies vacuously. -/
theorem C4_witness : verify oracleTrue [0, 0] [] = Except.ok () :=
  (C4_size_error_characterization oracleTrue [0, 0] []).2 (by decide) (by decide)

/-- C5: once the header and size checks pass, `verify` returns `Ok` iff all
`num_signatures` records pass, and the error of the first failing record is
returned unchanged (processing stops at the first failure; `verify` is a
pure function so there is no state to change). -/
theorem C5_first_failure_determines_result (oracle : CryptoOracle)
    (data : List Nat) (ids : List (List Nat)) :
    (verify oracle data ids = Except.ok () ↔
      (2 ≤ data.length ∧ ¬(data.getD 0 0 = 0 ∧ 2 < data.length) ∧
        2 + 14 * data.getD 0 0 ≤ data.length ∧
        ∀ i, i < data.getD 0 0 →
          verifyRecord oracle data ids (recordOffsets data i) = Except.ok ())) ∧
    (∀ i e, i < data.getD 0 0 →
      2 ≤ data.length →
      ¬(data.getD 0 0 = 0 ∧ 2 < data.length) →
      2 + 14 * data.getD 0 0 ≤ data.length →
      verifyRecord oracle data ids (recordOffsets data i) = Except.error e →
      (∀ j, j < i →
        verifyRecord oracle data ids (recordOffsets data j) = Except.ok ()) →
      verify oracle data ids = Except.error e) := by
  constructor
  · simp only [verify, SIGNATURE_OFFSETS_START, SIGNATURE_OFFSETS_SERIALIZED_SIZE]
    split_ifs with h1 h2 h3
    · exact iff_of_false (by simp) (fun hc => absurd hc.1 (by omega))
    · exact iff_of_false (by simp) (fun hc => hc.2.1 h2)
    · exact iff_of_false (by simp) (fun hc => absurd hc.2.2.1 (by omega))
    · rw [verifyRecords_ok_iff oracle data ids _ 0]
      simp only [Nat.zero_add]
      exact ⟨fun h => ⟨by omega, h2, by omega, h⟩, fun hc => hc.2.2.2⟩
  · intro i e hi hle hpad hsz hrec hprev
    simp only [verify, SIGNATURE_OFFSETS_START, SIGNATURE_OFFSETS_SERIALIZED_SIZE]
    rw [if_neg (by omega), if_neg hpad, if_neg (by omega)]
    refine verifyRecords_first_error oracle data ids _ 0 i e hi ?_ ?_
    · rwa [Nat.zero_add]
    · intro j hj; rw [Nat.zero_add]; exact hprev j hj

/-- A 16-byte payload declaring one signature whose offsets record is all
zero (so its signature instruction index 0 points into an empty sibling
list). -/
def data16 : List Nat := [1, 0, 0, 0, 0, 0, 0, 0, 0, 0, 0, 0, 0, 0, 0, 0]

/-- C5 witness: the failing first record's `InvalidDataOffsets` is the
result of `verify`. -/
theorem C5_witness : verify oracleTrue data16 [] = Except.error PrecompileError.InvalidDataOffsets :=
  (C5_first_failure_determines_result oracleTrue data16 []).2 0
    PrecompileError.InvalidDataOffsets (by decide) (by decide) (by decide)
    (by decide) (by decide) (fun j hj => absurd hj (Nat.not_lt_zero j))

/-- `serializeOffsets` always yields 14 bytes. -/
theorem serializeOffsets_length (o : Secp256r1SignatureOffsets) :
    (serializeOffsets o).length = 14 := rfl

/-- Serialization followed by reinterpretation is the identity on records
whose fields are `u16` values. -/
theorem decodeOffsets_serializeOffsets (o : Secp256r1SignatureOffsets)
    (h1 : o.signature_offset < 65536) (h2 : o.signature_instruction_index < 65536)
    (h3 : o.public_key_offset < 65536) (h4 : o.public_key_instruction_index < 65536)
    (h5 : o.message_data_offset < 65536) (h6 : o.message_data_size < 65536)
    (h7 : o.message_instruction_index < 65536) :
    decodeOffsets (serializeOffsets o) = o := by
  obtain ⟨x1, x2, x3, x4, x5, x6, x7⟩ := o
  have heq : decodeOffsets (serializeOffsets ⟨x1, x2, x3, x4, x5, x6, x7⟩) =
      ⟨x1 % 256 + 256 * (x1 / 256 % 256), x2 % 256 + 256 * (x2 / 256 % 256),
       x3 % 256 + 256 * (x3 / 256 % 256), x4 % 256 + 256 * (x4 / 256 % 256),
       x5 % 256 + 256 * (x5 / 256 % 256), x6 % 256 + 256 * (x6 / 256 % 256),
       x7 % 256 + 256 * (x7 / 256 % 256)⟩ := rfl
  rw [heq]
  simp only [Secp256r1SignatureOffsets.mk.injEq] at *
  refine ⟨?_, ?_, ?_, ?_, ?_, ?_, ?_⟩ <;> omega

/-- The offsets record the builder serializes: contiguous layout
`header (2) | record (14) | pubkey (33) | signature (64) | message`,
all three instruction indices the sentinel, and `message_data_size` the
message length reduced as a `u16`. -/
def builderOffsets (message : List Nat) : Secp256r1SignatureOffsets :=
  { signature_offset := 49, signature_instruction_index := 0xFFFF,
    public_key_offset := 16, public_key_instruction_index := 0xFFFF,
    message_data_offset := 113, message_data_size := message.length % 65536,
    message_instruction_index := 0xFFFF }

/-- The `message_data_size` field the builder serializes. -/
theorem builderOffsets_message_data_size (message : List Nat) :
    (builderOffsets message).message_data_size = message.length % 65536 := rfl

/-- A builder payload, re-expressed with its 16-byte prefix explicit. -/
theorem new_instruction_form (pubkey signature message : List Nat) :
    new_secp256r1_instruction_data pubkey signature message =
      [1, 0] ++ (serializeOffsets (builderOffsets message) ++
        (pubkey ++ (signature ++ message))) := by
  unfold new_secp256r1_instruction_data builderOffsets DATA_START
    SIGNATURE_OFFSETS_SERIALIZED_SIZE SIGNATURE_OFFSETS_START
    COMPRESSED_PUBKEY_SERIALIZED_SIZE SIGNATURE_SERIALIZED_SIZE
  norm_num

/-- The offsets record found at byte 2 of a builder payload. -/
theorem recordOffsets_new_instruction (pubkey signature message : List Nat) :
    recordOffsets (new_secp256r1_instruction_data pubkey signature message) 0 =
      builderOffsets message := by
  unfold recordOffsets
  rw [new_instruction_form]
  simp only [Nat.zero_mul, Nat.zero_add, SIGNATURE_OFFSETS_SERIALIZED_SIZE,
    SIGNATURE_OFFSETS_START]
  rw [List.drop_left' (by rfl : ([1, 0] : List Nat).length = 2),
    List.take_left' (serializeOffsets_length (builderOffsets message))]
  refine decodeOffsets_serializeOffsets _ ?_ ?_ ?_ ?_ ?_ ?_ ?_ <;>
    simp only [builderOffsets] <;> omega

/-- C7 counterexample: for a 65536-byte message the builder's
`message_data_size` field is `message.len() as u16 = 0`, not the message
length. -/
theorem C7_counterexample :
    (recordOffsets (new_secp256r1_instruction_data (List.replicate 33 0)
        (List.replicate 64 0) (List.replicate 65536 0)) 0).message_data_size ≠
      (List.replicate (65536 : Nat) (0 : Nat)).length := by
  rw [recordOffsets_new_instruction, builderOffsets_message_data_size,
    List.length_replicate]
  omega

/-- C7 (amended): for a 33-byte public key and 64-byte signature (the
lengths the builder asserts), the payload starts with `num_signatures = 1`,
carries one offsets record at byte 2 whose three instruction indices are
all `0xFFFF` and whose offsets are 16 (public key), 49 (signature) and 113
(message), with the three components laid out contiguously at exactly
those offsets; `message_data_size` is the message length reduced modulo
`2^16` (equal to the message length whenever it is below 65536), and the
total payload length is `113 + message length`. -/
theorem C7_builder_layout (pubkey signature message payload : List Nat)
    (hpk : pubkey.length = COMPRESSED_PUBKEY_SERIALIZED_SIZE)
    (hsig : signature.length = SIGNATURE_SERIALIZED_SIZE)
    (hpay : payload = new_secp256r1_instruction_data pubkey signature message) :
    payload.getD 0 0 = 1 ∧
    recordOffsets payload 0 = builderOffsets message ∧
    (message.length < 65536 →
      (recordOffsets payload 0).message_data_size = message.length) ∧
    (payload.drop 16).take 33 = pubkey ∧
    (payload.drop 49).take 64 = signature ∧
    payload.drop 113 = message ∧
    payload.length = 113 + message.length := by
  subst hpay
  have hpk33 : pubkey.length = 33 := hpk
  have hsig64 : signature.length = 64 := hsig
  have hlen16 : (([1, 0] ++ serializeOffsets (builderOffsets message)) : List Nat).length = 16 := by
    rw [List.length_append, serializeOffsets_length]
    rfl
  have hg16 : new_secp256r1_instruction_data pubkey signature message =
      ([1, 0] ++ serializeOffsets (builderOffsets message)) ++
        (pubkey ++ (signature ++ message)) := by
    rw [new_instruction_form, ← List.append_assoc]
  have hg49 : new_secp256r1_instruction_data pubkey signature message =
      (([1, 0] ++ serializeOffsets (builderOffsets message)) ++ pubkey) ++
        (signature ++ message) := by
    rw [hg16, ← List.append_assoc]
  have hg113 : new_secp256r1_instruction_data pubkey signature message =
      ((([1, 0] ++ serializeOffsets (builderOffsets message)) ++ pubkey) ++
        signature) ++ message := by
    rw [hg49, ← List.append_assoc]
  have hgetD : (new_secp256r1_instruction_data pubkey signature message).getD 0 0 = 1 := by
    rw [new_instruction_form]; rfl
  refine ⟨hgetD, recordOffsets_new_instruction pubkey signature message, ?_, ?_, ?_, ?_, ?_⟩
  · intro hm
    rw [recordOffsets_new_instruction pubkey signature message]
    simp only [builderOffsets]
    omega
  · rw [hg16, List.drop_left' hlen16, List.take_left' hpk33]
  · rw [hg49, List.drop_left' (by rw [List.length_append, hlen16, hpk33]),
      List.take_left' hsig64]
  · rw [hg113, List.drop_left'
      (by rw [List.length_append, List.length_append, hlen16, hpk33, hsig64])]
  · rw [hg113]
    simp only [List.length_append, hlen16, hpk33, hsig64]

/-- C7 witness. -/
theorem C7_witness :
    (new_secp256r1_instruction_data (List.replicate 33 7) (List.replicate 64 9)
      [1, 2, 3]).length = 113 + 3 :=
  (C7_builder_layout (List.replicate 33 7) (List.replicate 64 9) [1, 2, 3] _
    (by decide) (by decide) rfl).2.2.2.2.2.2

/-- A 64-byte instruction payload declaring one signature whose offsets
record self-references offset 0, so that the resolved signature
(`bytes 0..64`) and public key (`bytes 0..33`) both contain byte 1 (`b`).
`r` ≈ 2^248, `s = 2`: both scalars pass the range and low-S checks for any
byte value `b`, so the outcome is decided by the public-key bytes. -/
def c8data (b : Nat) : List Nat :=
  [1, b, 0, 0, 255, 255, 0, 0, 255, 255, 0, 0, 0, 0, 255, 255] ++
  List.replicate 16 0 ++ List.replicate 31 0 ++ [2]

/-- An oracle (a behaviour the real point decoder can exhibit) that accepts
exactly the public keys whose second byte is zero. -/
def oracleC8 : CryptoOracle :=
  { decode_point := fun pk => pk.getD 1 0 == 0
    ecdsa_verify := fun _ _ _ _ => some true }

/-- C8 counterexample: two payloads of equal length differing only in the
byte at index 1 on which `verify` returns different results — byte 1 is
readable through a self-referencing offsets record, so it can influence
the result. -/
theorem C8_counterexample :
    ((c8data 0).take 1 = (c8data 1).take 1 ∧
      (c8data 0).drop 2 = (c8data 1).drop 2 ∧
      (c8data 0).length = (c8data 1).length) ∧
    verify oracleC8 (c8data 0) [] = Except.ok () ∧
    verify oracleC8 (c8data 1) [] = Except.error PrecompileError.InvalidPublicKey :=
  ⟨by decide, by decide, by decide⟩

/-- Resolving a slice with these parameters cannot read byte index 1 of the
instruction's own data: either it reads a sibling instruction, or it
starts past byte 1, or it ends before it. -/
def sliceAvoidsByte1 (idx off size : Nat) : Prop :=
  idx ≠ 0xFFFF ∨ 2 ≤ off ∨ off + size ≤ 1

/-- None of the three slices of an offsets record covers byte index 1 of
the instruction's own data. -/
def recordAvoidsByte1 (o : Secp256r1SignatureOffsets) : Prop :=
  sliceAvoidsByte1 o.signature_instruction_index o.signature_offset
    SIGNATURE_SERIALIZED_SIZE ∧
  sliceAvoidsByte1 o.public_key_instruction_index o.public_key_offset
    COMPRESSED_PUBKEY_SERIALIZED_SIZE ∧
  sliceAvoidsByte1 o.message_instruction_index o.message_data_offset
    o.message_data_size

/-- Dropping two more positions from a two-cons list drops into its tail. -/
theorem drop_cons2 (a b : Nat) (rest : List Nat) (n : Nat) :
    (a :: b :: rest).drop (n + 2) = rest.drop n := rfl

/-- Offsets records live at byte 2 and beyond, so they are unaffected by
byte 1. -/
theorem recordOffsets_cons2 (a b b' : Nat) (rest : List Nat) (i : Nat) :
    recordOffsets (a :: b :: rest) i = recordOffsets (a :: b' :: rest) i := by
  unfold recordOffsets
  simp only [SIGNATURE_OFFSETS_SERIALIZED_SIZE, SIGNATURE_OFFSETS_START]
  rw [drop_cons2 a b rest (i * 14), drop_cons2 a b' rest (i * 14)]

/-- `sliceFrom` does not depend on byte 1 when the slice starts at 2 or
later or ends before index 1. -/
theorem sliceFrom_cons2_eq (a b b' : Nat) (rest : List Nat) (off size : Nat)
    (h : 2 ≤ off ∨ off + size ≤ 1) :
    sliceFrom (a :: b :: rest) off size = sliceFrom (a :: b' :: rest) off size := by
  unfold sliceFrom
  have hlen : (a :: b :: rest).length = (a :: b' :: rest).length := by simp
  rcases h with h | h
  · obtain ⟨k, rfl⟩ : ∃ k, off = k + 2 := ⟨off - 2, by omega⟩
    rw [hlen, drop_cons2 a b rest k, drop_cons2 a b' rest k]
  · have hsat : saturating_add off size = off + size := by
      unfold saturating_add USIZE_MAX; omega
    rw [hsat, hlen]
    rcases Nat.lt_or_ge size 1 with hs | hs
    · have hz : size = 0 := by omega
      subst hz
      have h0 : off + 0 - off = 0 := by omega
      rw [h0]
      simp [List.take_zero]
    · have hoff : off = 0 := by omega
      have hone : size = 1 := by omega
      subst hoff; subst hone
      simp

/-- `get_data_slice` does not depend on byte 1 of the instruction's own
data when the requested slice avoids it. -/
theorem get_data_slice_cons2_eq (ids : List (List Nat)) (a b b' : Nat)
    (rest : List Nat) (idx off size : Nat) (h : sliceAvoidsByte1 idx off size) :
    get_data_slice (a :: b :: rest) ids idx off size =
      get_data_slice (a :: b' :: rest) ids idx off size := by
  unfold get_data_slice
  rcases h with h | h
  · rw [if_neg h, if_neg h]
  · by_cases hi : idx = 0xFFFF
    · rw [if_pos hi, if_pos hi]
      exact sliceFrom_cons2_eq a b b' rest off size h
    · rw [if_neg hi, if_neg hi]

/-- `verifyRecord` does not depend on byte 1 when the record's slices
avoid it. -/
theorem verifyRecord_cons2_eq (oracle : CryptoOracle) (ids : List (List Nat))
    (a b b' : Nat) (rest : List Nat) (o : Secp256r1SignatureOffsets)
    (h : recordAvoidsByte1 o) :
    verifyRecord oracle (a :: b :: rest) ids o =
      verifyRecord oracle (a :: b' :: rest) ids o := by
  obtain ⟨h1, h2, h3⟩ := h
  unfold verifyRecord
  rw [get_data_slice_cons2_eq ids a b b' rest _ _ _ h1,
    get_data_slice_cons2_eq ids a b b' rest _ _ _ h2,
    get_data_slice_cons2_eq ids a b b' rest _ _ _ h3]

/-- The record loop does not depend on byte 1 when every processed
record's slices avoid it. -/
theorem verifyRecords_cons2_eq (oracle : CryptoOracle) (ids : List (List Nat))
    (a b b' : Nat) (rest : List Nat) : ∀ count i,
    (∀ j, j < count → recordAvoidsByte1 (recordOffsets (a :: b :: rest) (i + j))) →
    verifyRecords oracle (a :: b :: rest) ids i count =
      verifyRecords oracle (a :: b' :: rest) ids i count := by
  intro count
  induction count with
  | zero => intro i _; rfl
  | succ k ih =>
    intro i h
    have h0 : recordAvoidsByte1 (recordOffsets (a :: b :: rest) i) := by
      have := h 0 (Nat.succ_pos k)
      rwa [Nat.add_zero] at this
    unfold verifyRecords
    rw [← recordOffsets_cons2 a b b' rest i,
      verifyRecord_cons2_eq oracle ids a b b' rest (recordOffsets (a :: b :: rest) i) h0]
    cases hrec : verifyRecord oracle (a :: b' :: rest) ids
        (recordOffsets (a :: b :: rest) i) with
    | error e => rfl
    | ok u =>
      cases u
      refine ih (i + 1) (fun j hj => ?_)
      have := h (j + 1) (by omega)
      rwa [← Nat.add_comm 1 j, ← Nat.add_assoc] at this

/-- C8 (amended): byte 1 is never read by the header and size logic, so two
payloads of length at least 2 that differ only in the byte at index 1 give
the same `verify` result, provided no record of the payload resolves a
slice from the instruction's own data that covers byte index 1 (through a
self-referencing offsets record byte 1 is readable, as the counterexample
shows). -/
theorem C8_byte1_noninterference_amended (oracle : CryptoOracle)
    (ids : List (List Nat)) (a b b' : Nat) (rest : List Nat)
    (hrec : ∀ i, i < a → recordAvoidsByte1 (recordOffsets (a :: b :: rest) i)) :
    verify oracle (a :: b :: rest) ids = verify oracle (a :: b' :: rest) ids := by
  unfold verify
  simp only [List.length_cons, List.getD_cons_zero]
  split_ifs with h1 h2 h3 <;> try rfl
  refine verifyRecords_cons2_eq oracle ids a b b' rest a 0 (fun j hj => ?_)
  rw [Nat.zero_add]
  exact hrec j hj

/-- C8 amended-claim witness: two 16-byte one-record payloads differing
only at byte 1, whose record reads sibling instruction 0 everywhere. -/
theorem C8_witness :
    verify oracleTrue (1 :: 0 :: [0, 0, 0, 0, 0, 0, 0, 0, 0, 0, 0, 0, 0, 0]) [] =
      verify oracleTrue (1 :: 7 :: [0, 0, 0, 0, 0, 0, 0, 0, 0, 0, 0, 0, 0, 0]) [] :=
  C8_byte1_noninterference_amended oracleTrue [] 1 0 7
    [0, 0, 0, 0, 0, 0, 0, 0, 0, 0, 0, 0, 0, 0]
    (by
      intro i hi
      have hz : i = 0 := by omega
      subst hz
      exact ⟨Or.inl (by decide), Or.inl (by decide), Or.inl (by decide)⟩)

end Secp256r1
